import Mathlib

/-!
Verification of the bidirectional sync coordinator of the
onekeymap-vscode-extension repository (`sync-coordinator.ts`).

The coordinator is embedded shallowly: each of its two async entry points
(`onVscodeKeybindingsChanged`, `onOnekeymapConfigChanged`) and the bootstrap
(`initializeIfNeeded`) becomes a pure Lean function from the coordinator's
mutable state (`syncing` flag, `lastWrittenHash` map) and an environment
describing the outcomes of every external call (file reads/writes, the four
translation-service RPCs) to the updated state together with a trace of
observable events (service calls, write attempts, status messages, flag
assignments).  Thrown TypeScript exceptions are `Except.error` outcomes; the
`try`/`finally`/`catch` structure of the source is translated branch by
branch.  The SHA-256 `contentHash` function is a parameter of the
configuration: the coordinator only ever compares digests of strings for
equality, so every theorem below holds for an arbitrary digest function, and
concrete witnesses instantiate it with the identity function.
-/

/-- Opaque unified keymap representation; the coordinator never inspects it,
only passes it between service calls (`proto/keymap/v1/keymap`). -/
structure Keymap where
  data : String
deriving DecidableEq

/-- One entry of a diff; the coordinator never inspects entries, only the
lengths of the sequences that hold them. -/
structure KeymapEntry where
  data : String
deriving DecidableEq

/-- An update entry pairing an origin entry and its updated form. -/
structure KeymapEntryUpdate where
  origin : KeymapEntry
  updated : KeymapEntry
deriving DecidableEq

/-- Diff result of `analyzeEditorConfig`: sequences of entries to add,
remove and update (`KeymapChanges` of `proto/keymap/v1/onekeymap_service`). -/
structure KeymapChanges where
  add : List KeymapEntry
  remove : List KeymapEntry
  update : List KeymapEntryUpdate
deriving DecidableEq

/-- Response of the `analyzeEditorConfig` RPC: optional keymap and diff. -/
structure AnalyzeEditorConfigResponse where
  keymap : Option Keymap
  changes : Option KeymapChanges
deriving DecidableEq

/-- Response of the `generateKeymap` RPC: the new shared-file content. -/
structure GenerateKeymapResponse where
  content : String
deriving DecidableEq

/-- Response of the `parseKeymap` RPC: optional keymap. -/
structure ParseKeymapResponse where
  keymap : Option Keymap
deriving DecidableEq

/-- Response of the `generateEditorConfig` RPC: the new native content. -/
structure GenerateEditorConfigResponse where
  content : String
deriving DecidableEq

/-- Joins a list of strings with a separator, as `Array.prototype.join`
does in `parts.join(', ')`. -/
def joinParts (sep : String) : List String → String
  | [] => ""
  | [p] => p
  | p :: q :: rest => p ++ sep ++ joinParts sep (q :: rest)

/-- Translation of `formatChangeSummary` from `sync-coordinator.ts`: absent
diff yields `""`; otherwise the nonzero counts are rendered in the fixed
order add, remove, update and comma-joined, with `"no changes"` when all
three sequences are empty. -/
def formatChangeSummary (changes : Option KeymapChanges) : String :=
  match changes with
  | none => ""
  | some c =>
    let parts : List String :=
      (if c.add.length > 0 then [toString c.add.length ++ " added"] else []) ++
      (if c.remove.length > 0 then [toString c.remove.length ++ " removed"] else []) ++
      (if c.update.length > 0 then [toString c.update.length ++ " updated"] else [])
    if parts.length > 0 then joinParts (", ") parts else "no changes"

/-- Specification-side clause of the change summary: `"<count><suffix>"`
when the count is nonzero, nothing otherwise. -/
def summaryClause (count : Nat) (suffix : String) : List String :=
  if count = 0 then [] else [toString count ++ suffix]

/-- Specification-side change summary, following the spec's words: `"no
changes"` exactly when all three counts are zero, otherwise the
comma-joined clauses in the fixed order add, remove, update, omitting the
clauses with zero count. -/
def specChangeSummary (a r u : Nat) : String :=
  if a = 0 ∧ r = 0 ∧ u = 0 then "no changes"
  else joinParts (", ")
    (summaryClause a (" added") ++ summaryClause r (" removed") ++
     summaryClause u (" updated"))

/-- Observable events of one coordinator invocation, in program order:
the four translation-service calls, `ensureDir`, a file-write attempt
(`ok` records whether `writeFile` returned or threw), a user-visible
status message, and an assignment to the `syncing` flag. -/
inductive SyncEvent where
  | parseKeymapCall (content : String)
  | analyzeEditorConfigCall (content : String)
  | generateKeymapCall
  | generateEditorConfigCall
  | ensureDirCall (path : String)
  | writeAttempt (path : String) (content : String) (ok : Bool)
  | statusMessage (message : String)
  | syncingSet (value : Bool)
deriving DecidableEq

/-- True on the four translation-service RPC events. -/
def SyncEvent.isServiceCall : SyncEvent → Bool
  | .parseKeymapCall _ => true
  | .analyzeEditorConfigCall _ => true
  | .generateKeymapCall => true
  | .generateEditorConfigCall => true
  | _ => false

/-- True on `writeAttempt` events. -/
def SyncEvent.isWriteAttempt : SyncEvent → Bool
  | .writeAttempt _ _ _ => true
  | _ => false

/-- True on `statusMessage` events. -/
def SyncEvent.isStatusMessage : SyncEvent → Bool
  | .statusMessage _ => true
  | _ => false

/-- True on assignments to the `syncing` flag. -/
def SyncEvent.isSyncingSet : SyncEvent → Bool
  | .syncingSet _ => true
  | _ => false

/-- The translation-service calls of a trace. -/
def serviceCallEvents (t : List SyncEvent) : List SyncEvent :=
  t.filter SyncEvent.isServiceCall

/-- The file-write attempts of a trace. -/
def writeEvents (t : List SyncEvent) : List SyncEvent :=
  t.filter SyncEvent.isWriteAttempt

/-- The user-visible status messages of a trace. -/
def statusEvents (t : List SyncEvent) : List SyncEvent :=
  t.filter SyncEvent.isStatusMessage

/-- The `syncing`-flag assignments and write attempts of a trace. -/
def flagWriteEvents (t : List SyncEvent) : List SyncEvent :=
  t.filter (fun e => e.isSyncingSet || e.isWriteAttempt)

/-- Flag discipline of one invocation trace: the `syncing` flag is either
never assigned, or set to true and cleared with no write attempted in
between, or set to true, followed by exactly one write attempt (successful
or not), followed by the clear. -/
def FlagDiscipline (t : List SyncEvent) : Prop :=
  flagWriteEvents t = [] ∨
  flagWriteEvents t = [SyncEvent.syncingSet true, SyncEvent.syncingSet false] ∨
  ∃ p c ok, flagWriteEvents t =
    [SyncEvent.syncingSet true, SyncEvent.writeAttempt p c ok,
     SyncEvent.syncingSet false]

/-- Configuration of a `SyncCoordinator` instance: the two watched paths and
the digest function (`contentHash`, SHA-256 in the source; the coordinator
only compares digests for equality, so it is kept abstract here). -/
structure SyncConfig where
  keybindingsPath : String
  onekeymapPath : String
  contentHash : String → String

/-- Mutable state of a `SyncCoordinator`: the `syncing` flag and the
`lastWrittenHash` map from path to the digest most recently recorded for a
write to that path.  The map is an association list read through
`lookupHash`; `setHash` prepends, so the most recent binding wins, which
matches `Map.set`/`Map.get` observationally. -/
structure CoordinatorState where
  syncing : Bool
  lastWrittenHash : List (String × String)
deriving DecidableEq

/-- First-match lookup in the `lastWrittenHash` association list. -/
def lookupHash : List (String × String) → String → Option String
  | [], _ => none
  | (p, h) :: rest, q => if p = q then some h else lookupHash rest q

/-- Overwriting update of the `lastWrittenHash` association list. -/
def setHash (m : List (String × String)) (p h : String) : List (String × String) :=
  (p, h) :: m

/-- Outcomes of every external interaction one invocation may perform:
file reads, the four service RPCs, `ensureDir`, the two file writes, and
the two existence checks used by `initializeIfNeeded`.  `Except.error`
models a thrown exception (for reads: missing or unreadable file). -/
structure SyncEnv where
  readKeybindings : Except Unit String
  readOnekeymap : Except Unit String
  parseKeymapResult : String → Except Unit ParseKeymapResponse
  analyzeEditorConfigResult : String → Option Keymap → Except Unit AnalyzeEditorConfigResponse
  generateKeymapResult : Keymap → Except Unit GenerateKeymapResponse
  generateEditorConfigResult : Keymap → String → Except Unit GenerateEditorConfigResponse
  ensureDirResult : Except Unit Unit
  writeOnekeymapResult : String → Except Unit Unit
  writeKeybindingsResult : String → Except Unit Unit
  onekeymapExists : Bool
  keybindingsExists : Bool

/-- Failure status message of the native-to-shared direction. -/
def syncFailedVsMessage : String := "OneKeymap: Sync failed (VS Code → onekeymap)"

/-- Failure status message of the shared-to-native direction. -/
def syncFailedOkMessage : String := "OneKeymap: Sync failed (onekeymap → VS Code)"

/-- Success status message of the shared-to-native direction. -/
def syncedFromOnekeymapMessage : String := "OneKeymap: Synced from onekeymap.json"

/-- Success status message of the native-to-shared direction, carrying the
change summary. -/
def syncedFromVscodeMessage (summary : String) : String :=
  "OneKeymap: Synced from VS Code (" ++ summary ++ ")"

/-- Translation of the private `loadOnekeymapKeymap`: read the shared file
and parse it; any thrown exception (unreadable file or failing RPC) is
swallowed and yields no baseline. -/
def loadOnekeymapKeymap (env : SyncEnv) : Option Keymap × List SyncEvent :=
  match env.readOnekeymap with
  | .error _ => (none, [])
  | .ok content =>
    match env.parseKeymapResult content with
    | .error _ => (none, [SyncEvent.parseKeymapCall content])
    | .ok resp => (resp.keymap, [SyncEvent.parseKeymapCall content])

/-- The `changes && add.length === 0 && remove.length === 0 && update.length === 0`
test of the source: true only when a diff is present and all three of its
sequences are empty. -/
def changesAllEmpty : Option KeymapChanges → Bool
  | none => false
  | some c => c.add.length == 0 && c.remove.length == 0 && c.update.length == 0

/-- Translation of `SyncCoordinator.onVscodeKeybindingsChanged` (native to
shared direction), returning the updated state and the event trace of the
invocation.  Control flow mirrors the source: `syncing` guard, read of the
native file (thrown read error: silent return), hash-echo guard, then a
`try` block that loads the baseline, calls `analyzeEditorConfig`, returns
on an absent keymap, records the native hash and returns on an all-empty
diff, calls `generateKeymap`, and performs the guarded write section
(`syncing := true`; `ensureDir`; record the new digest; `writeFile`;
`finally syncing := false`); any exception of the `try` block reports the
direction's failure status message. -/
def onVscodeKeybindingsChanged (cfg : SyncConfig) (env : SyncEnv)
    (s : CoordinatorState) : CoordinatorState × List SyncEvent :=
  if s.syncing then (s, [])
  else
    match env.readKeybindings with
    | .error _ => (s, [])
    | .ok content =>
      let hash := cfg.contentHash content
      if lookupHash s.lastWrittenHash cfg.keybindingsPath = some hash then (s, [])
      else
        let loaded := loadOnekeymapKeymap env
        let evs1 := loaded.2 ++ [SyncEvent.analyzeEditorConfigCall content]
        match env.analyzeEditorConfigResult content loaded.1 with
        | .error _ => (s, evs1 ++ [SyncEvent.statusMessage syncFailedVsMessage])
        | .ok analyzeResponse =>
          match analyzeResponse.keymap with
          | none => (s, evs1)
          | some keymap =>
            let changes := analyzeResponse.changes
            let summary := formatChangeSummary changes
            if changesAllEmpty changes then
              ({ s with lastWrittenHash :=
                   setHash s.lastWrittenHash cfg.keybindingsPath hash }, evs1)
            else
              let evs2 := evs1 ++ [SyncEvent.generateKeymapCall]
              match env.generateKeymapResult keymap with
              | .error _ => (s, evs2 ++ [SyncEvent.statusMessage syncFailedVsMessage])
              | .ok generateResponse =>
                let newContent := generateResponse.content
                let evs3 := evs2 ++ [SyncEvent.syncingSet true,
                                     SyncEvent.ensureDirCall cfg.onekeymapPath]
                match env.ensureDirResult with
                | .error _ =>
                  ({ s with syncing := false },
                   evs3 ++ [SyncEvent.syncingSet false,
                            SyncEvent.statusMessage syncFailedVsMessage])
                | .ok _ =>
                  let newHash := cfg.contentHash newContent
                  let s2 : CoordinatorState :=
                    { syncing := true,
                      lastWrittenHash :=
                        setHash s.lastWrittenHash cfg.onekeymapPath newHash }
                  match env.writeOnekeymapResult newContent with
                  | .error _ =>
                    ({ s2 with syncing := false },
                     evs3 ++ [SyncEvent.writeAttempt cfg.onekeymapPath newContent false,
                              SyncEvent.syncingSet false,
                              SyncEvent.statusMessage syncFailedVsMessage])
                  | .ok _ =>
                    ({ s2 with syncing := false },
                     evs3 ++ [SyncEvent.writeAttempt cfg.onekeymapPath newContent true,
                              SyncEvent.syncingSet false,
                              SyncEvent.statusMessage (syncedFromVscodeMessage summary)])

/-- The current native content used by the shared-to-native direction: the
native file's content, with an unreadable file replaced by the empty
string (`keybindings.json may not exist yet`). -/
def currentVscodeContent (env : SyncEnv) : String :=
  match env.readKeybindings with
  | .error _ => ""
  | .ok c => c

/-- Translation of `SyncCoordinator.onOnekeymapConfigChanged` (shared to
native direction): `syncing` guard, read of the shared file (thrown read
error: silent return), hash-echo guard, then a `try` block that calls
`parseKeymap`, returns on an absent keymap, reads the current native
content (empty string when unreadable), calls `generateEditorConfig`,
returns when the generated content equals the current content, and
performs the guarded write section (`syncing := true`; record the new
digest; `writeFile`; `finally syncing := false`); any exception of the
`try` block reports the direction's failure status message. -/
def onOnekeymapConfigChanged (cfg : SyncConfig) (env : SyncEnv)
    (s : CoordinatorState) : CoordinatorState × List SyncEvent :=
  if s.syncing then (s, [])
  else
    match env.readOnekeymap with
    | .error _ => (s, [])
    | .ok content =>
      let hash := cfg.contentHash content
      if lookupHash s.lastWrittenHash cfg.onekeymapPath = some hash then (s, [])
      else
        let evs1 := [SyncEvent.parseKeymapCall content]
        match env.parseKeymapResult content with
        | .error _ => (s, evs1 ++ [SyncEvent.statusMessage syncFailedOkMessage])
        | .ok parseResponse =>
          match parseResponse.keymap with
          | none => (s, evs1)
          | some keymap =>
            let current := currentVscodeContent env
            let evs2 := evs1 ++ [SyncEvent.generateEditorConfigCall]
            match env.generateEditorConfigResult keymap current with
            | .error _ => (s, evs2 ++ [SyncEvent.statusMessage syncFailedOkMessage])
            | .ok generateResponse =>
              let newContent := generateResponse.content
              if newContent = current then (s, evs2)
              else
                let evs3 := evs2 ++ [SyncEvent.syncingSet true]
                let newHash := cfg.contentHash newContent
                let s2 : CoordinatorState :=
                  { syncing := true,
                    lastWrittenHash :=
                      setHash s.lastWrittenHash cfg.keybindingsPath newHash }
                match env.writeKeybindingsResult newContent with
                | .error _ =>
                  ({ s2 with syncing := false },
                   evs3 ++ [SyncEvent.writeAttempt cfg.keybindingsPath newContent false,
                            SyncEvent.syncingSet false,
                            SyncEvent.statusMessage syncFailedOkMessage])
                | .ok _ =>
                  ({ s2 with syncing := false },
                   evs3 ++ [SyncEvent.writeAttempt cfg.keybindingsPath newContent true,
                            SyncEvent.syncingSet false,
                            SyncEvent.statusMessage syncedFromOnekeymapMessage])

/-- Translation of `SyncCoordinator.initializeIfNeeded`: when the shared
file is absent and the native file present, run the native-to-shared
handler once; otherwise only log. -/
def initializeIfNeeded (cfg : SyncConfig) (env : SyncEnv)
    (s : CoordinatorState) : CoordinatorState × List SyncEvent :=
  if !env.onekeymapExists && env.keybindingsExists then
    onVscodeKeybindingsChanged cfg env s
  else (s, [])

/-! Concrete fixtures used to evaluate the theorems on explicit inputs.
The digest function is instantiated with the identity, a legitimate
instantiation of the abstract `contentHash` parameter. -/

/-- Concrete coordinator configuration. -/
def cfgW : SyncConfig where
  keybindingsPath := "kb.json"
  onekeymapPath := "onekeymap.json"
  contentHash := fun s => s

/-- Fresh coordinator state: not syncing, no recorded hashes. -/
def stateW : CoordinatorState where
  syncing := false
  lastWrittenHash := []

/-- Environment in which every external call succeeds: the native file
holds `"N1"`, the shared file is absent, analysis yields a keymap with one
added entry, generation yields shared content `"S1"` and native content
`"N2"`. -/
def envHappy : SyncEnv where
  readKeybindings := .ok ("N1")
  readOnekeymap := .error ()
  parseKeymapResult := fun _ => .ok ⟨some ⟨"K"⟩⟩
  analyzeEditorConfigResult := fun _ _ => .ok ⟨some ⟨"K"⟩, some ⟨[⟨"e"⟩], [], []⟩⟩
  generateKeymapResult := fun _ => .ok ⟨"S1"⟩
  generateEditorConfigResult := fun _ _ => .ok ⟨"N2"⟩
  ensureDirResult := .ok ()
  writeOnekeymapResult := fun _ => .ok ()
  writeKeybindingsResult := fun _ => .ok ()
  onekeymapExists := false
  keybindingsExists := true

/-- Environment in which both file reads throw. -/
def envUnreadable : SyncEnv :=
  { envHappy with
    readKeybindings := .error ()
    readOnekeymap := .error () }

/-- Environment whose analysis reports a diff with all-empty sequences. -/
def envNoChange : SyncEnv :=
  { envHappy with
    analyzeEditorConfigResult := fun _ _ => .ok ⟨some ⟨"K"⟩, some ⟨[], [], []⟩⟩ }

/-- Environment in which `analyzeEditorConfig` throws. -/
def envAnalyzeFail : SyncEnv :=
  { envHappy with analyzeEditorConfigResult := fun _ _ => .error () }

/-- Environment in which `generateKeymap` throws. -/
def envGenKeymapFail : SyncEnv :=
  { envHappy with generateKeymapResult := fun _ => .error () }

/-- Environment with a readable shared file in which `parseKeymap` throws. -/
def envParseFail : SyncEnv :=
  { envHappy with
    readOnekeymap := .ok ("S0")
    parseKeymapResult := fun _ => .error () }

/-- Environment with a readable shared file in which `generateEditorConfig`
throws. -/
def envGenEditorFail : SyncEnv :=
  { envHappy with
    readOnekeymap := .ok ("S0")
    generateEditorConfigResult := fun _ _ => .error () }

/-- Environment in which the generated native content equals the current
native content. -/
def envSameGen : SyncEnv :=
  { envHappy with
    readOnekeymap := .ok ("S0")
    generateEditorConfigResult := fun _ _ => .ok ⟨"N1"⟩ }

/-- Environment in which the shared-file write throws. -/
def envWriteFailVs : SyncEnv :=
  { envHappy with writeOnekeymapResult := fun _ => .error () }

/-- Environment in which the native-file write throws. -/
def envWriteFailOk : SyncEnv :=
  { envHappy with
    readOnekeymap := .ok ("S0")
    writeKeybindingsResult := fun _ => .error () }

/-- Environment observing the shared file holding exactly the content
`"S1"` written by a previous native-to-shared sync. -/
def envEcho : SyncEnv :=
  { envHappy with readOnekeymap := .ok ("S1") }

/-- Environment of a second native-direction invocation after a completed
sync: the native file still holds `"N1"`, the shared file now holds the
written `"S1"`, and analysis against the updated baseline reports an
all-empty diff. -/
def envSecond : SyncEnv :=
  { envHappy with
    readOnekeymap := .ok ("S1")
    analyzeEditorConfigResult := fun _ _ => .ok ⟨some ⟨"K"⟩, some ⟨[], [], []⟩⟩ }

/-- Environment in which the shared file already exists, so bootstrap must
do nothing. -/
def envAlreadyInit : SyncEnv :=
  { envHappy with onekeymapExists := true }

/-- Environment observing the native file holding exactly the content
`"N2"` written by a previous shared-to-native sync. -/
def envEchoNative : SyncEnv :=
  { envHappy with readKeybindings := .ok ("N2") }

/-! Helper lemmas about the map and the guards. -/

lemma lookupHash_setHash_same (m : List (String × String)) (p h : String) :
    lookupHash (setHash m p h) p = some h := by
  simp [setHash, lookupHash]

lemma loadOnekeymapKeymap_trace (env : SyncEnv) :
    (loadOnekeymapKeymap env).2 = [] ∨
    ∃ c, (loadOnekeymapKeymap env).2 = [SyncEvent.parseKeymapCall c] := by
  unfold loadOnekeymapKeymap
  rcases env.readOnekeymap with _ | c
  · exact Or.inl rfl
  · rcases h : env.parseKeymapResult c with _ | resp <;> simp [h]

lemma onVs_hash_guard (cfg : SyncConfig) (env : SyncEnv) (s : CoordinatorState)
    (content : String) (hr : env.readKeybindings = .ok content)
    (hg : lookupHash s.lastWrittenHash cfg.keybindingsPath =
      some (cfg.contentHash content)) :
    onVscodeKeybindingsChanged cfg env s = (s, []) := by
  unfold onVscodeKeybindingsChanged
  cases hs : s.syncing <;> simp [hs, hr, hg]

lemma onOk_hash_guard (cfg : SyncConfig) (env : SyncEnv) (s : CoordinatorState)
    (content : String) (hr : env.readOnekeymap = .ok content)
    (hg : lookupHash s.lastWrittenHash cfg.onekeymapPath =
      some (cfg.contentHash content)) :
    onOnekeymapConfigChanged cfg env s = (s, []) := by
  unfold onOnekeymapConfigChanged
  cases hs : s.syncing <;> simp [hs, hr, hg]

/-- C8: if reading the changed file fails (file missing or unreadable), the
invocation of either direction's handler returns with unchanged state and
an empty trace: zero translation-service calls, no write attempt and no
status message. -/
theorem unreadable_source_silent_noop (cfg : SyncConfig) (env env2 : SyncEnv)
    (s s2 : CoordinatorState)
    (hv : env.readKeybindings = .error ())
    (ho : env2.readOnekeymap = .error ()) :
    onVscodeKeybindingsChanged cfg env s = (s, []) ∧
    onOnekeymapConfigChanged cfg env2 s2 = (s2, []) := by
  constructor
  · unfold onVscodeKeybindingsChanged
    cases hs : s.syncing <;> simp [hs, hv]
  · unfold onOnekeymapConfigChanged
    cases hs : s2.syncing <;> simp [hs, ho]

/-- Witness for C8 at a concrete input. -/
theorem unreadable_source_silent_noop_witness :
    onVscodeKeybindingsChanged cfgW envUnreadable stateW = (stateW, []) ∧
    onOnekeymapConfigChanged cfgW envUnreadable stateW = (stateW, []) :=
  unreadable_source_silent_noop cfgW envUnreadable envUnreadable stateW stateW rfl rfl

/-- C9: when `generateEditorConfig` returns content byte-identical to the
current native content (an unreadable native file counting as the empty
string), the shared-to-native handler returns with unchanged state after
only its two service calls: no write attempt and no status message. -/
theorem identical_generation_noop (cfg : SyncConfig) (env : SyncEnv)
    (s : CoordinatorState) (content : String) (resp : ParseKeymapResponse)
    (keymap : Keymap) (gresp : GenerateEditorConfigResponse)
    (hsync : s.syncing = false)
    (hread : env.readOnekeymap = .ok content)
    (hguard : lookupHash s.lastWrittenHash cfg.onekeymapPath ≠
      some (cfg.contentHash content))
    (hparse : env.parseKeymapResult content = .ok resp)
    (hk : resp.keymap = some keymap)
    (hgen : env.generateEditorConfigResult keymap (currentVscodeContent env) = .ok gresp)
    (heq : gresp.content = currentVscodeContent env) :
    onOnekeymapConfigChanged cfg env s =
      (s, [SyncEvent.parseKeymapCall content, SyncEvent.generateEditorConfigCall]) := by
  unfold onOnekeymapConfigChanged
  simp [hsync, hread, hguard, hparse, hk, hgen, heq]

/-- Witness for C9 at a concrete input. -/
theorem identical_generation_noop_witness :
    onOnekeymapConfigChanged cfgW envSameGen stateW =
      (stateW, [SyncEvent.parseKeymapCall ("S0"), SyncEvent.generateEditorConfigCall]) :=
  identical_generation_noop cfgW envSameGen stateW ("S0") ⟨some ⟨"K"⟩⟩ ⟨"K"⟩ ⟨"N1"⟩
    rfl rfl (by decide) rfl rfl rfl rfl

/-- C4: when analysis returns a keymap together with a diff whose add,
remove and update sequences are all empty, the native-to-shared handler
records the native content's digest for the native path, and returns
without calling `generateKeymap`, without any write attempt, and without
any status message. -/
theorem empty_diff_noop (cfg : SyncConfig) (env : SyncEnv) (s : CoordinatorState)
    (content : String) (resp : AnalyzeEditorConfigResponse) (keymap : Keymap)
    (ch : KeymapChanges)
    (hsync : s.syncing = false)
    (hread : env.readKeybindings = .ok content)
    (hguard : lookupHash s.lastWrittenHash cfg.keybindingsPath ≠
      some (cfg.contentHash content))
    (hana : env.analyzeEditorConfigResult content (loadOnekeymapKeymap env).1 = .ok resp)
    (hk : resp.keymap = some keymap)
    (hch : resp.changes = some ch)
    (ha : ch.add = []) (hr : ch.remove = []) (hu : ch.update = []) :
    (onVscodeKeybindingsChanged cfg env s).1 =
      { s with lastWrittenHash :=
          setHash s.lastWrittenHash cfg.keybindingsPath (cfg.contentHash content) } ∧
    SyncEvent.generateKeymapCall ∉ (onVscodeKeybindingsChanged cfg env s).2 ∧
    writeEvents (onVscodeKeybindingsChanged cfg env s).2 = [] ∧
    statusEvents (onVscodeKeybindingsChanged cfg env s).2 = [] := by
  have htrace : (onVscodeKeybindingsChanged cfg env s) =
      ({ s with lastWrittenHash :=
           setHash s.lastWrittenHash cfg.keybindingsPath (cfg.contentHash content) },
       (loadOnekeymapKeymap env).2 ++ [SyncEvent.analyzeEditorConfigCall content]) := by
    unfold onVscodeKeybindingsChanged
    simp [hsync, hread, hguard, hana, hk, changesAllEmpty, hch, ha, hr, hu]
  rw [htrace]
  rcases loadOnekeymapKeymap_trace env with h | ⟨c, h⟩ <;>
    simp [h, writeEvents, statusEvents, SyncEvent.isWriteAttempt,
      SyncEvent.isStatusMessage]

/-- Witness for C4 at a concrete input. -/
theorem empty_diff_noop_witness :
    (onVscodeKeybindingsChanged cfgW envNoChange stateW).1 =
      { stateW with lastWrittenHash := setHash stateW.lastWrittenHash cfgW.keybindingsPath (cfgW.contentHash ("N1")) } ∧
    SyncEvent.generateKeymapCall ∉ (onVscodeKeybindingsChanged cfgW envNoChange stateW).2 ∧
    writeEvents (onVscodeKeybindingsChanged cfgW envNoChange stateW).2 = [] ∧
    statusEvents (onVscodeKeybindingsChanged cfgW envNoChange stateW).2 = [] :=
  empty_diff_noop cfgW envNoChange stateW ("N1") ⟨some ⟨"K"⟩, some ⟨[], [], []⟩⟩
    ⟨"K"⟩ ⟨[], [], []⟩ rfl rfl (by decide) rfl rfl rfl rfl rfl rfl

lemma load_trace_no_write (env : SyncEnv) (p c : String) (ok : Bool) :
    SyncEvent.writeAttempt p c ok ∉ (loadOnekeymapKeymap env).2 := by
  rcases loadOnekeymapKeymap_trace env with h | ⟨d, h⟩ <;> simp [h]

lemma onVs_write_records_hash (cfg : SyncConfig) (env : SyncEnv)
    (s : CoordinatorState) (c : String)
    (hw : SyncEvent.writeAttempt cfg.onekeymapPath c true ∈
      (onVscodeKeybindingsChanged cfg env s).2) :
    lookupHash (onVscodeKeybindingsChanged cfg env s).1.lastWrittenHash
        cfg.onekeymapPath = some (cfg.contentHash c) ∧
    (onVscodeKeybindingsChanged cfg env s).1.syncing = false := by
  have hload := load_trace_no_write env cfg.onekeymapPath c true
  unfold onVscodeKeybindingsChanged at hw ⊢
  rcases hsy : s.syncing
  · simp only [hsy, Bool.false_eq_true, if_false] at hw ⊢
    rcases hr : env.readKeybindings with _ | content
    · simp [hr] at hw
    · simp only [hr] at hw ⊢
      by_cases hg : lookupHash s.lastWrittenHash cfg.keybindingsPath =
          some (cfg.contentHash content)
      · simp [hg] at hw
      · simp only [if_neg hg] at hw ⊢
        rcases ha : env.analyzeEditorConfigResult content (loadOnekeymapKeymap env).1
          with _ | resp
        · simp [ha, hload] at hw
        · simp only [ha] at hw ⊢
          rcases hk : resp.keymap with _ | keymap
          · simp [hk, hload] at hw
          · simp only [hk] at hw ⊢
            rcases hce : changesAllEmpty resp.changes
            · simp only [hce, Bool.false_eq_true, if_false] at hw ⊢
              rcases hgk : env.generateKeymapResult keymap with _ | gresp
              · simp [hgk, hload] at hw
              · simp only [hgk] at hw ⊢
                rcases hed : env.ensureDirResult with _ | u
                · simp [hed, hload] at hw
                · simp only [hed] at hw ⊢
                  rcases hwr : env.writeOnekeymapResult gresp.content with _ | u2
                  · simp [hwr, hload] at hw
                  · simp only [hwr] at hw ⊢
                    simp [hload] at hw
                    subst hw
                    exact ⟨lookupHash_setHash_same s.lastWrittenHash
                      cfg.onekeymapPath (cfg.contentHash gresp.content), trivial⟩
            · simp [hce, hload] at hw
  · simp [hsy] at hw

/-- C1: after an invocation of the native-to-shared handler whose trace
contains a successful write of content `c` to the shared path, a subsequent
invocation of the shared-to-native handler that reads exactly `c` from the
shared path returns with unchanged state and an empty trace — in
particular zero translation-service calls, hence zero `parseKeymap` calls —
because the digest of `c` was recorded for the shared path before the
write. -/
theorem echo_suppression (cfg : SyncConfig) (env env2 : SyncEnv)
    (s : CoordinatorState) (c : String)
    (hw : SyncEvent.writeAttempt cfg.onekeymapPath c true ∈
      (onVscodeKeybindingsChanged cfg env s).2)
    (hr : env2.readOnekeymap = .ok c) :
    onOnekeymapConfigChanged cfg env2 (onVscodeKeybindingsChanged cfg env s).1 =
      ((onVscodeKeybindingsChanged cfg env s).1, []) ∧
    serviceCallEvents (onOnekeymapConfigChanged cfg env2
      (onVscodeKeybindingsChanged cfg env s).1).2 = [] := by
  obtain ⟨h1, _⟩ := onVs_write_records_hash cfg env s c hw
  have h2 := onOk_hash_guard cfg env2 (onVscodeKeybindingsChanged cfg env s).1 c hr h1
  exact ⟨h2, by rw [h2]; rfl⟩

/-- Witness for C1 at a concrete input. -/
theorem echo_suppression_witness :
    onOnekeymapConfigChanged cfgW envEcho
        (onVscodeKeybindingsChanged cfgW envHappy stateW).1 =
      ((onVscodeKeybindingsChanged cfgW envHappy stateW).1, []) ∧
    serviceCallEvents (onOnekeymapConfigChanged cfgW envEcho
      (onVscodeKeybindingsChanged cfgW envHappy stateW).1).2 = [] :=
  echo_suppression cfgW envHappy envEcho stateW ("S1") (by decide) rfl

lemma load_trace_filter_flagWrite (env : SyncEnv) :
    (loadOnekeymapKeymap env).2.filter
      (fun e => e.isSyncingSet || e.isWriteAttempt) = [] := by
  rcases loadOnekeymapKeymap_trace env with h | ⟨d, h⟩ <;>
    simp [h, SyncEvent.isSyncingSet, SyncEvent.isWriteAttempt]

lemma onVs_flag_discipline (cfg : SyncConfig) (env : SyncEnv) (s : CoordinatorState)
    (hs : s.syncing = false) :
    (onVscodeKeybindingsChanged cfg env s).1.syncing = false ∧
    FlagDiscipline (onVscodeKeybindingsChanged cfg env s).2 := by
  have hlt := loadOnekeymapKeymap_trace env
  unfold onVscodeKeybindingsChanged
  simp only [hs, Bool.false_eq_true, if_false]
  rcases hr : env.readKeybindings with _ | content
  · exact ⟨by first | exact hs | trivial, Or.inl rfl⟩
  · dsimp only
    by_cases hg : lookupHash s.lastWrittenHash cfg.keybindingsPath =
        some (cfg.contentHash content)
    · simp only [if_pos hg]
      exact ⟨by first | exact hs | trivial, Or.inl rfl⟩
    · simp only [if_neg hg]
      generalize hb : (loadOnekeymapKeymap env).1 = baseline
      generalize hgen : (loadOnekeymapKeymap env).2 = ltrace
      rw [hgen] at hlt
      rcases ha : env.analyzeEditorConfigResult content baseline with _ | resp
      all_goals dsimp only
      · refine ⟨by first | exact hs | trivial, Or.inl ?_⟩
        rcases hlt with h | ⟨d, h⟩ <;>
          simp [h, flagWriteEvents, SyncEvent.isSyncingSet, SyncEvent.isWriteAttempt]
      · rcases hk : resp.keymap with _ | keymap
        all_goals dsimp only
        · refine ⟨by first | exact hs | trivial, Or.inl ?_⟩
          rcases hlt with h | ⟨d, h⟩ <;>
            simp [h, flagWriteEvents, SyncEvent.isSyncingSet, SyncEvent.isWriteAttempt]
        · by_cases hce : changesAllEmpty resp.changes = true
          · simp only [if_pos hce]
            refine ⟨by first | rfl | trivial, Or.inl ?_⟩
            rcases hlt with h | ⟨d, h⟩ <;>
              simp [h, flagWriteEvents, SyncEvent.isSyncingSet, SyncEvent.isWriteAttempt]
          · simp only [if_neg hce]
            rcases hgk : env.generateKeymapResult keymap with _ | gresp
            all_goals dsimp only
            · refine ⟨by first | exact hs | trivial, Or.inl ?_⟩
              rcases hlt with h | ⟨d, h⟩ <;>
                simp [h, flagWriteEvents, SyncEvent.isSyncingSet,
                  SyncEvent.isWriteAttempt]
            · rcases hed : env.ensureDirResult with _ | u
              all_goals dsimp only
              · refine ⟨by first | rfl | trivial, Or.inr (Or.inl ?_)⟩
                rcases hlt with h | ⟨d, h⟩ <;>
                  simp [h, flagWriteEvents, SyncEvent.isSyncingSet,
                    SyncEvent.isWriteAttempt]
              · rcases hwr : env.writeOnekeymapResult gresp.content with _ | u2
                all_goals dsimp only
                · refine ⟨by first | rfl | trivial, Or.inr (Or.inr
                    ⟨cfg.onekeymapPath, gresp.content, false, ?_⟩)⟩
                  rcases hlt with h | ⟨d, h⟩ <;>
                    simp [h, flagWriteEvents, SyncEvent.isSyncingSet,
                      SyncEvent.isWriteAttempt]
                · refine ⟨by first | rfl | trivial, Or.inr (Or.inr
                    ⟨cfg.onekeymapPath, gresp.content, true, ?_⟩)⟩
                  rcases hlt with h | ⟨d, h⟩ <;>
                    simp [h, flagWriteEvents, SyncEvent.isSyncingSet,
                      SyncEvent.isWriteAttempt]

lemma onOk_flag_discipline (cfg : SyncConfig) (env : SyncEnv) (s : CoordinatorState)
    (hs : s.syncing = false) :
    (onOnekeymapConfigChanged cfg env s).1.syncing = false ∧
    FlagDiscipline (onOnekeymapConfigChanged cfg env s).2 := by
  unfold onOnekeymapConfigChanged
  simp only [hs, Bool.false_eq_true, if_false]
  rcases hr : env.readOnekeymap with _ | content
  · exact ⟨by first | exact hs | trivial, Or.inl rfl⟩
  · dsimp only
    by_cases hg : lookupHash s.lastWrittenHash cfg.onekeymapPath =
        some (cfg.contentHash content)
    · simp only [if_pos hg]
      exact ⟨by first | exact hs | trivial, Or.inl rfl⟩
    · simp only [if_neg hg]
      rcases hp : env.parseKeymapResult content with _ | resp
      all_goals dsimp only
      · refine ⟨by first | exact hs | trivial, Or.inl ?_⟩
        simp [flagWriteEvents, SyncEvent.isSyncingSet, SyncEvent.isWriteAttempt]
      · rcases hk : resp.keymap with _ | keymap
        all_goals dsimp only
        · refine ⟨by first | exact hs | trivial, Or.inl ?_⟩
          simp [flagWriteEvents, SyncEvent.isSyncingSet, SyncEvent.isWriteAttempt]
        · rcases hge : env.generateEditorConfigResult keymap (currentVscodeContent env)
            with _ | gresp
          all_goals dsimp only
          · refine ⟨by first | exact hs | trivial, Or.inl ?_⟩
            simp [flagWriteEvents, SyncEvent.isSyncingSet, SyncEvent.isWriteAttempt]
          · by_cases heq : gresp.content = currentVscodeContent env
            · simp only [if_pos heq]
              refine ⟨by first | exact hs | trivial, Or.inl ?_⟩
              simp [flagWriteEvents, SyncEvent.isSyncingSet, SyncEvent.isWriteAttempt]
            · simp only [if_neg heq]
              rcases hwr : env.writeKeybindingsResult gresp.content with _ | u2
              all_goals dsimp only
              · refine ⟨by first | rfl | trivial, Or.inr (Or.inr
                  ⟨cfg.keybindingsPath, gresp.content, false, ?_⟩)⟩
                simp [flagWriteEvents, SyncEvent.isSyncingSet, SyncEvent.isWriteAttempt]
              · refine ⟨by first | rfl | trivial, Or.inr (Or.inr
                  ⟨cfg.keybindingsPath, gresp.content, true, ?_⟩)⟩
                simp [flagWriteEvents, SyncEvent.isSyncingSet, SyncEvent.isWriteAttempt]

/-- C2: for every invocation of either handler started while the flag is
clear, on every exit path — early return, service-call exception, or
`writeFile` exception — the `syncing` flag is false when the invocation
completes; moreover the trace's flag assignments are either absent, or a
set-true immediately before the write section and a guaranteed clear
afterward with at most one write attempt (of either outcome) in between. -/
theorem syncing_flag_invariant (cfg : SyncConfig) (env env2 : SyncEnv)
    (s s2 : CoordinatorState) (hs : s.syncing = false) (hs2 : s2.syncing = false) :
    ((onVscodeKeybindingsChanged cfg env s).1.syncing = false ∧
     FlagDiscipline (onVscodeKeybindingsChanged cfg env s).2) ∧
    ((onOnekeymapConfigChanged cfg env2 s2).1.syncing = false ∧
     FlagDiscipline (onOnekeymapConfigChanged cfg env2 s2).2) :=
  ⟨onVs_flag_discipline cfg env s hs, onOk_flag_discipline cfg env2 s2 hs2⟩

/-- Witness for C2 at concrete inputs whose writes throw. -/
theorem syncing_flag_invariant_witness :
    ((onVscodeKeybindingsChanged cfgW envWriteFailVs stateW).1.syncing = false ∧
     FlagDiscipline (onVscodeKeybindingsChanged cfgW envWriteFailVs stateW).2) ∧
    ((onOnekeymapConfigChanged cfgW envWriteFailOk stateW).1.syncing = false ∧
     FlagDiscipline (onOnekeymapConfigChanged cfgW envWriteFailOk stateW).2) :=
  syncing_flag_invariant cfgW envWriteFailVs envWriteFailOk stateW stateW rfl rfl

/-- C5: if a translation-service call throws — `analyzeEditorConfig` or
`generateKeymap` in the native-to-shared handler, `parseKeymap` on the
changed content or `generateEditorConfig` in the shared-to-native handler —
that invocation reports exactly one status message, the direction-specific
failure message, and performs no write attempt. -/
theorem service_failure_one_report_no_write (cfg : SyncConfig) (s : CoordinatorState)
    (hsync : s.syncing = false) :
    (∀ env content,
      env.readKeybindings = .ok content →
      lookupHash s.lastWrittenHash cfg.keybindingsPath ≠
        some (cfg.contentHash content) →
      env.analyzeEditorConfigResult content (loadOnekeymapKeymap env).1 = .error () →
      statusEvents (onVscodeKeybindingsChanged cfg env s).2 =
        [SyncEvent.statusMessage syncFailedVsMessage] ∧
      writeEvents (onVscodeKeybindingsChanged cfg env s).2 = []) ∧
    (∀ env content resp keymap,
      env.readKeybindings = .ok content →
      lookupHash s.lastWrittenHash cfg.keybindingsPath ≠
        some (cfg.contentHash content) →
      env.analyzeEditorConfigResult content (loadOnekeymapKeymap env).1 = .ok resp →
      resp.keymap = some keymap →
      changesAllEmpty resp.changes = false →
      env.generateKeymapResult keymap = .error () →
      statusEvents (onVscodeKeybindingsChanged cfg env s).2 =
        [SyncEvent.statusMessage syncFailedVsMessage] ∧
      writeEvents (onVscodeKeybindingsChanged cfg env s).2 = []) ∧
    (∀ env content,
      env.readOnekeymap = .ok content →
      lookupHash s.lastWrittenHash cfg.onekeymapPath ≠
        some (cfg.contentHash content) →
      env.parseKeymapResult content = .error () →
      statusEvents (onOnekeymapConfigChanged cfg env s).2 =
        [SyncEvent.statusMessage syncFailedOkMessage] ∧
      writeEvents (onOnekeymapConfigChanged cfg env s).2 = []) ∧
    (∀ env content resp keymap,
      env.readOnekeymap = .ok content →
      lookupHash s.lastWrittenHash cfg.onekeymapPath ≠
        some (cfg.contentHash content) →
      env.parseKeymapResult content = .ok resp →
      resp.keymap = some keymap →
      env.generateEditorConfigResult keymap (currentVscodeContent env) = .error () →
      statusEvents (onOnekeymapConfigChanged cfg env s).2 =
        [SyncEvent.statusMessage syncFailedOkMessage] ∧
      writeEvents (onOnekeymapConfigChanged cfg env s).2 = []) := by
  refine ⟨?_, ?_, ?_, ?_⟩
  · intro env content hread hguard hana
    have htrace : onVscodeKeybindingsChanged cfg env s =
        (s, (loadOnekeymapKeymap env).2 ++ [SyncEvent.analyzeEditorConfigCall content]
            ++ [SyncEvent.statusMessage syncFailedVsMessage]) := by
      unfold onVscodeKeybindingsChanged
      simp [hsync, hread, hguard, hana]
    rw [htrace]
    rcases loadOnekeymapKeymap_trace env with h | ⟨d, h⟩ <;>
      simp [h, statusEvents, writeEvents, SyncEvent.isStatusMessage,
        SyncEvent.isWriteAttempt]
  · intro env content resp keymap hread hguard hana hk hce hgen
    have htrace : onVscodeKeybindingsChanged cfg env s =
        (s, (loadOnekeymapKeymap env).2 ++ [SyncEvent.analyzeEditorConfigCall content]
            ++ [SyncEvent.generateKeymapCall]
            ++ [SyncEvent.statusMessage syncFailedVsMessage]) := by
      unfold onVscodeKeybindingsChanged
      simp [hsync, hread, hguard, hana, hk, hce, hgen]
    rw [htrace]
    rcases loadOnekeymapKeymap_trace env with h | ⟨d, h⟩ <;>
      simp [h, statusEvents, writeEvents, SyncEvent.isStatusMessage,
        SyncEvent.isWriteAttempt]
  · intro env content hread hguard hp
    have htrace : onOnekeymapConfigChanged cfg env s =
        (s, [SyncEvent.parseKeymapCall content]
            ++ [SyncEvent.statusMessage syncFailedOkMessage]) := by
      unfold onOnekeymapConfigChanged
      simp [hsync, hread, hguard, hp]
    rw [htrace]
    simp [statusEvents, writeEvents, SyncEvent.isStatusMessage,
      SyncEvent.isWriteAttempt]
  · intro env content resp keymap hread hguard hp hk hge
    have htrace : onOnekeymapConfigChanged cfg env s =
        (s, [SyncEvent.parseKeymapCall content]
            ++ [SyncEvent.generateEditorConfigCall]
            ++ [SyncEvent.statusMessage syncFailedOkMessage]) := by
      unfold onOnekeymapConfigChanged
      simp [hsync, hread, hguard, hp, hk, hge]
    rw [htrace]
    simp [statusEvents, writeEvents, SyncEvent.isStatusMessage,
      SyncEvent.isWriteAttempt]

/-- Witness for C5: each of the four failing-call cases evaluated at a
concrete input. -/
theorem service_failure_one_report_no_write_witness :
    (statusEvents (onVscodeKeybindingsChanged cfgW envAnalyzeFail stateW).2 =
        [SyncEvent.statusMessage syncFailedVsMessage] ∧
      writeEvents (onVscodeKeybindingsChanged cfgW envAnalyzeFail stateW).2 = []) ∧
    (statusEvents (onVscodeKeybindingsChanged cfgW envGenKeymapFail stateW).2 =
        [SyncEvent.statusMessage syncFailedVsMessage] ∧
      writeEvents (onVscodeKeybindingsChanged cfgW envGenKeymapFail stateW).2 = []) ∧
    (statusEvents (onOnekeymapConfigChanged cfgW envParseFail stateW).2 =
        [SyncEvent.statusMessage syncFailedOkMessage] ∧
      writeEvents (onOnekeymapConfigChanged cfgW envParseFail stateW).2 = []) ∧
    (statusEvents (onOnekeymapConfigChanged cfgW envGenEditorFail stateW).2 =
        [SyncEvent.statusMessage syncFailedOkMessage] ∧
      writeEvents (onOnekeymapConfigChanged cfgW envGenEditorFail stateW).2 = []) :=
  ⟨(service_failure_one_report_no_write cfgW stateW rfl).1 envAnalyzeFail ("N1")
      rfl (by decide) rfl,
   (service_failure_one_report_no_write cfgW stateW rfl).2.1 envGenKeymapFail ("N1")
      ⟨some ⟨"K"⟩, some ⟨[⟨"e"⟩], [], []⟩⟩ ⟨"K"⟩ rfl (by decide) rfl rfl rfl rfl,
   (service_failure_one_report_no_write cfgW stateW rfl).2.2.1 envParseFail ("S0")
      rfl (by decide) rfl,
   (service_failure_one_report_no_write cfgW stateW rfl).2.2.2 envGenEditorFail ("S0")
      ⟨some ⟨"K"⟩⟩ ⟨"K"⟩ rfl (by decide) rfl rfl rfl⟩

/-- C7: when the shared file is absent and the native file present, the
bootstrap runs exactly the native-to-shared handler — literally the same
transaction — and, when that transaction's environment lets every step
succeed, the shared file is written; when the shared file already exists
or the native file is absent, the bootstrap returns with unchanged state
and an empty trace (zero service calls, no writes). -/
theorem initializeIfNeeded_bootstrap (cfg : SyncConfig) (s : CoordinatorState)
    (hsync : s.syncing = false) :
    (∀ env, env.onekeymapExists = false → env.keybindingsExists = true →
      initializeIfNeeded cfg env s = onVscodeKeybindingsChanged cfg env s) ∧
    (∀ env content resp keymap gresp,
      env.onekeymapExists = false → env.keybindingsExists = true →
      env.readKeybindings = .ok content →
      lookupHash s.lastWrittenHash cfg.keybindingsPath ≠
        some (cfg.contentHash content) →
      env.analyzeEditorConfigResult content (loadOnekeymapKeymap env).1 = .ok resp →
      resp.keymap = some keymap →
      changesAllEmpty resp.changes = false →
      env.generateKeymapResult keymap = .ok gresp →
      env.ensureDirResult = .ok () →
      env.writeOnekeymapResult gresp.content = .ok () →
      SyncEvent.writeAttempt cfg.onekeymapPath gresp.content true ∈
        (initializeIfNeeded cfg env s).2) ∧
    (∀ env, env.onekeymapExists = true ∨ env.keybindingsExists = false →
      initializeIfNeeded cfg env s = (s, [])) := by
  refine ⟨?_, ?_, ?_⟩
  · intro env h1 h2
    unfold initializeIfNeeded
    simp [h1, h2]
  · intro env content resp keymap gresp h1 h2 hread hguard hana hk hce hgk hed hwr
    unfold initializeIfNeeded
    simp only [h1, h2, Bool.not_false, Bool.and_self, if_true]
    unfold onVscodeKeybindingsChanged
    simp [hsync, hread, hguard, hana, hk, hce, hgk, hed, hwr]
  · intro env h
    unfold initializeIfNeeded
    rcases h with h | h <;> simp [h]

/-- Witness for C7 at concrete inputs: a successful bootstrap writes the
generated shared content, and a bootstrap with the shared file present is
a no-op. -/
theorem initializeIfNeeded_bootstrap_witness :
    initializeIfNeeded cfgW envHappy stateW =
      onVscodeKeybindingsChanged cfgW envHappy stateW ∧
    SyncEvent.writeAttempt cfgW.onekeymapPath ("S1") true ∈
      (initializeIfNeeded cfgW envHappy stateW).2 ∧
    initializeIfNeeded cfgW envAlreadyInit stateW = (stateW, []) :=
  ⟨(initializeIfNeeded_bootstrap cfgW stateW rfl).1 envHappy rfl rfl,
   (initializeIfNeeded_bootstrap cfgW stateW rfl).2.1 envHappy ("N1")
     ⟨some ⟨"K"⟩, some ⟨[⟨"e"⟩], [], []⟩⟩ ⟨"K"⟩ ⟨"S1"⟩
     rfl rfl rfl (by decide) rfl rfl rfl rfl rfl rfl,
   (initializeIfNeeded_bootstrap cfgW stateW rfl).2.2 envAlreadyInit (Or.inl rfl)⟩

/-- C10: in either direction, when `writeFile` throws during the syncing
section, the `lastWrittenHash` entry for the target path still equals the
digest of the content the coordinator attempted to write (it is recorded
before the write and never rolled back), the trace shows exactly one failed
write attempt, and a later invocation of the other direction's handler that
reads content equal to the attempted content from that path is suppressed
by the hash guard. -/
theorem hash_retained_on_failed_write (cfg : SyncConfig) (s : CoordinatorState)
    (hsync : s.syncing = false) :
    (∀ env content resp keymap gresp,
      env.readKeybindings = .ok content →
      lookupHash s.lastWrittenHash cfg.keybindingsPath ≠
        some (cfg.contentHash content) →
      env.analyzeEditorConfigResult content (loadOnekeymapKeymap env).1 = .ok resp →
      resp.keymap = some keymap →
      changesAllEmpty resp.changes = false →
      env.generateKeymapResult keymap = .ok gresp →
      env.ensureDirResult = .ok () →
      env.writeOnekeymapResult gresp.content = .error () →
      lookupHash (onVscodeKeybindingsChanged cfg env s).1.lastWrittenHash
          cfg.onekeymapPath = some (cfg.contentHash gresp.content) ∧
      writeEvents (onVscodeKeybindingsChanged cfg env s).2 =
        [SyncEvent.writeAttempt cfg.onekeymapPath gresp.content false] ∧
      (∀ env2, env2.readOnekeymap = .ok gresp.content →
        onOnekeymapConfigChanged cfg env2 (onVscodeKeybindingsChanged cfg env s).1 =
          ((onVscodeKeybindingsChanged cfg env s).1, []))) ∧
    (∀ env content resp keymap gresp,
      env.readOnekeymap = .ok content →
      lookupHash s.lastWrittenHash cfg.onekeymapPath ≠
        some (cfg.contentHash content) →
      env.parseKeymapResult content = .ok resp →
      resp.keymap = some keymap →
      env.generateEditorConfigResult keymap (currentVscodeContent env) = .ok gresp →
      gresp.content ≠ currentVscodeContent env →
      env.writeKeybindingsResult gresp.content = .error () →
      lookupHash (onOnekeymapConfigChanged cfg env s).1.lastWrittenHash
          cfg.keybindingsPath = some (cfg.contentHash gresp.content) ∧
      writeEvents (onOnekeymapConfigChanged cfg env s).2 =
        [SyncEvent.writeAttempt cfg.keybindingsPath gresp.content false] ∧
      (∀ env2, env2.readKeybindings = .ok gresp.content →
        onVscodeKeybindingsChanged cfg env2 (onOnekeymapConfigChanged cfg env s).1 =
          ((onOnekeymapConfigChanged cfg env s).1, []))) := by
  constructor
  · intro env content resp keymap gresp hread hguard hana hk hce hgk hed hwr
    have hrun : onVscodeKeybindingsChanged cfg env s =
        ({ syncing := false,
           lastWrittenHash := setHash s.lastWrittenHash cfg.onekeymapPath
             (cfg.contentHash gresp.content) },
         (loadOnekeymapKeymap env).2 ++ [SyncEvent.analyzeEditorConfigCall content]
           ++ [SyncEvent.generateKeymapCall]
           ++ [SyncEvent.syncingSet true, SyncEvent.ensureDirCall cfg.onekeymapPath]
           ++ [SyncEvent.writeAttempt cfg.onekeymapPath gresp.content false,
               SyncEvent.syncingSet false,
               SyncEvent.statusMessage syncFailedVsMessage]) := by
      unfold onVscodeKeybindingsChanged
      simp [hsync, hread, hguard, hana, hk, hce, hgk, hed, hwr]
    refine ⟨?_, ?_, ?_⟩
    · rw [hrun]
      exact lookupHash_setHash_same s.lastWrittenHash cfg.onekeymapPath
        (cfg.contentHash gresp.content)
    · rw [hrun]
      rcases loadOnekeymapKeymap_trace env with h | ⟨d, h⟩ <;>
        simp [h, writeEvents, SyncEvent.isWriteAttempt]
    · intro env2 hr2
      refine onOk_hash_guard cfg env2 _ gresp.content hr2 ?_
      rw [hrun]
      exact lookupHash_setHash_same s.lastWrittenHash cfg.onekeymapPath
        (cfg.contentHash gresp.content)
  · intro env content resp keymap gresp hread hguard hp hk hge hne hwr
    have hrun : onOnekeymapConfigChanged cfg env s =
        ({ syncing := false,
           lastWrittenHash := setHash s.lastWrittenHash cfg.keybindingsPath
             (cfg.contentHash gresp.content) },
         [SyncEvent.parseKeymapCall content]
           ++ [SyncEvent.generateEditorConfigCall]
           ++ [SyncEvent.syncingSet true]
           ++ [SyncEvent.writeAttempt cfg.keybindingsPath gresp.content false,
               SyncEvent.syncingSet false,
               SyncEvent.statusMessage syncFailedOkMessage]) := by
      unfold onOnekeymapConfigChanged
      simp [hsync, hread, hguard, hp, hk, hge, hne, hwr]
    refine ⟨?_, ?_, ?_⟩
    · rw [hrun]
      exact lookupHash_setHash_same s.lastWrittenHash cfg.keybindingsPath
        (cfg.contentHash gresp.content)
    · rw [hrun]
      simp [writeEvents, SyncEvent.isWriteAttempt]
    · intro env2 hr2
      refine onVs_hash_guard cfg env2 _ gresp.content hr2 ?_
      rw [hrun]
      exact lookupHash_setHash_same s.lastWrittenHash cfg.keybindingsPath
        (cfg.contentHash gresp.content)

/-- Witness for C10 at concrete inputs: both directions with a throwing
write, each followed by a suppressed echo invocation. -/
theorem hash_retained_on_failed_write_witness :
    (lookupHash (onVscodeKeybindingsChanged cfgW envWriteFailVs stateW).1.lastWrittenHash
        cfgW.onekeymapPath = some (cfgW.contentHash ("S1")) ∧
      writeEvents (onVscodeKeybindingsChanged cfgW envWriteFailVs stateW).2 =
        [SyncEvent.writeAttempt cfgW.onekeymapPath ("S1") false] ∧
      onOnekeymapConfigChanged cfgW envEcho
          (onVscodeKeybindingsChanged cfgW envWriteFailVs stateW).1 =
        ((onVscodeKeybindingsChanged cfgW envWriteFailVs stateW).1, [])) ∧
    (lookupHash (onOnekeymapConfigChanged cfgW envWriteFailOk stateW).1.lastWrittenHash
        cfgW.keybindingsPath = some (cfgW.contentHash ("N2")) ∧
      writeEvents (onOnekeymapConfigChanged cfgW envWriteFailOk stateW).2 =
        [SyncEvent.writeAttempt cfgW.keybindingsPath ("N2") false] ∧
      onVscodeKeybindingsChanged cfgW envEchoNative
          (onOnekeymapConfigChanged cfgW envWriteFailOk stateW).1 =
        ((onOnekeymapConfigChanged cfgW envWriteFailOk stateW).1, [])) := by
  have h1 := (hash_retained_on_failed_write cfgW stateW rfl).1 envWriteFailVs ("N1")
    ⟨some ⟨"K"⟩, some ⟨[⟨"e"⟩], [], []⟩⟩ ⟨"K"⟩ ⟨"S1"⟩
    rfl (by decide) rfl rfl rfl rfl rfl rfl
  have h2 := (hash_retained_on_failed_write cfgW stateW rfl).2 envWriteFailOk ("S0")
    ⟨some ⟨"K"⟩⟩ ⟨"K"⟩ ⟨"N2"⟩ rfl (by decide) rfl rfl rfl (by decide) rfl
  exact ⟨⟨h1.1, h1.2.1, h1.2.2 envEcho rfl⟩, ⟨h2.1, h2.2.1, h2.2.2 envEchoNative rfl⟩⟩

/-- C3 counterexample: a first native-to-shared invocation completes a full
sync (its write to the shared path updates `lastWrittenHash`), yet a second
invocation reading the identical native content `"N1"` is not suppressed:
it performs `parseKeymap` and a second `analyzeEditorConfig` call for the
same content, because the write recorded the digest only under the shared
path while the native handler's guard checks the native path. -/
theorem idempotence_counterexample :
    writeEvents (onVscodeKeybindingsChanged cfgW envHappy stateW).2 =
      [SyncEvent.writeAttempt cfgW.onekeymapPath ("S1") true] ∧
    envHappy.readKeybindings = .ok ("N1") ∧
    envSecond.readKeybindings = .ok ("N1") ∧
    serviceCallEvents (onVscodeKeybindingsChanged cfgW envSecond
        (onVscodeKeybindingsChanged cfgW envHappy stateW).1).2 =
      [SyncEvent.parseKeymapCall ("S1"),
       SyncEvent.analyzeEditorConfigCall ("N1")] := by
  refine ⟨by decide, rfl, rfl, by decide⟩

/-- C3 (amended): once a no-structural-change analysis result has been
recorded for the native content — which stores the content's digest under
the native path — a second native-to-shared invocation reading the
identical content is fully suppressed: unchanged state and an empty trace,
so zero translation-service calls. -/
theorem idempotence_after_noop_recorded (cfg : SyncConfig) (env1 env2 : SyncEnv)
    (s : CoordinatorState) (content : String) (resp : AnalyzeEditorConfigResponse)
    (keymap : Keymap) (ch : KeymapChanges)
    (hsync : s.syncing = false)
    (hread1 : env1.readKeybindings = .ok content)
    (hguard : lookupHash s.lastWrittenHash cfg.keybindingsPath ≠
      some (cfg.contentHash content))
    (hana : env1.analyzeEditorConfigResult content (loadOnekeymapKeymap env1).1 =
      .ok resp)
    (hk : resp.keymap = some keymap)
    (hch : resp.changes = some ch)
    (ha : ch.add = []) (hr : ch.remove = []) (hu : ch.update = [])
    (hread2 : env2.readKeybindings = .ok content) :
    onVscodeKeybindingsChanged cfg env2 (onVscodeKeybindingsChanged cfg env1 s).1 =
      ((onVscodeKeybindingsChanged cfg env1 s).1, []) := by
  have hstate : (onVscodeKeybindingsChanged cfg env1 s).1 =
      { s with lastWrittenHash :=
          setHash s.lastWrittenHash cfg.keybindingsPath (cfg.contentHash content) } := by
    unfold onVscodeKeybindingsChanged
    simp [hsync, hread1, hguard, hana, hk, changesAllEmpty, hch, ha, hr, hu]
  rw [hstate]
  refine onVs_hash_guard cfg env2 _ content hread2 ?_
  exact lookupHash_setHash_same s.lastWrittenHash cfg.keybindingsPath
    (cfg.contentHash content)

/-- Witness for the amended C3 at a concrete input. -/
theorem idempotence_after_noop_recorded_witness :
    onVscodeKeybindingsChanged cfgW envNoChange
        (onVscodeKeybindingsChanged cfgW envNoChange stateW).1 =
      ((onVscodeKeybindingsChanged cfgW envNoChange stateW).1, []) :=
  idempotence_after_noop_recorded cfgW envNoChange envNoChange stateW ("N1")
    ⟨some ⟨"K"⟩, some ⟨[], [], []⟩⟩ ⟨"K"⟩ ⟨[], [], []⟩
    rfl rfl (by decide) rfl rfl rfl rfl rfl rfl rfl

lemma lastChar_append (s t : String) (c : Char)
    (h : t.data.getLast? = some c) : (s ++ t).data.getLast? = some c := by
  rw [String.data_append, List.getLast?_append, h]
  rfl

lemma lastChar_added (n : Nat) :
    (toString n ++ (" added")).data.getLast? = some 'd' :=
  lastChar_append _ _ _ (by decide)

lemma lastChar_removed (n : Nat) :
    (toString n ++ (" removed")).data.getLast? = some 'd' :=
  lastChar_append _ _ _ (by decide)

lemma lastChar_updated (n : Nat) :
    (toString n ++ (" updated")).data.getLast? = some 'd' :=
  lastChar_append _ _ _ (by decide)

lemma lastChar_formatChangeSummary (c : KeymapChanges)
    (h : ¬(c.add.length = 0 ∧ c.remove.length = 0 ∧ c.update.length = 0)) :
    (formatChangeSummary (some c)).data.getLast? = some 'd' := by
  rcases c with ⟨a, r, u⟩
  rcases a with _ | ⟨a0, arest⟩ <;> rcases r with _ | ⟨r0, rrest⟩ <;>
    rcases u with _ | ⟨u0, urest⟩
  · exact absurd ⟨rfl, rfl, rfl⟩ h
  · have hfmt : formatChangeSummary (some ⟨[], [], u0 :: urest⟩) =
        toString (u0 :: urest).length ++ (" updated") := by
      simp [formatChangeSummary, joinParts]
    rw [hfmt]
    exact lastChar_updated _
  · have hfmt : formatChangeSummary (some ⟨[], r0 :: rrest, []⟩) =
        toString (r0 :: rrest).length ++ (" removed") := by
      simp [formatChangeSummary, joinParts]
    rw [hfmt]
    exact lastChar_removed _
  · have hfmt : formatChangeSummary (some ⟨[], r0 :: rrest, u0 :: urest⟩) =
        (toString (r0 :: rrest).length ++ (" removed")) ++ (", ") ++
          (toString (u0 :: urest).length ++ (" updated")) := by
      simp [formatChangeSummary, joinParts]
    rw [hfmt]
    exact lastChar_append _ _ _ (lastChar_updated _)
  · have hfmt : formatChangeSummary (some ⟨a0 :: arest, [], []⟩) =
        toString (a0 :: arest).length ++ (" added") := by
      simp [formatChangeSummary, joinParts]
    rw [hfmt]
    exact lastChar_added _
  · have hfmt : formatChangeSummary (some ⟨a0 :: arest, [], u0 :: urest⟩) =
        (toString (a0 :: arest).length ++ (" added")) ++ (", ") ++
          (toString (u0 :: urest).length ++ (" updated")) := by
      simp [formatChangeSummary, joinParts]
    rw [hfmt]
    exact lastChar_append _ _ _ (lastChar_updated _)
  · have hfmt : formatChangeSummary (some ⟨a0 :: arest, r0 :: rrest, []⟩) =
        (toString (a0 :: arest).length ++ (" added")) ++ (", ") ++
          (toString (r0 :: rrest).length ++ (" removed")) := by
      simp [formatChangeSummary, joinParts]
    rw [hfmt]
    exact lastChar_append _ _ _ (lastChar_removed _)
  · have hfmt : formatChangeSummary (some ⟨a0 :: arest, r0 :: rrest, u0 :: urest⟩) =
        (toString (a0 :: arest).length ++ (" added")) ++ (", ") ++
          ((toString (r0 :: rrest).length ++ (" removed")) ++ (", ") ++
           (toString (u0 :: urest).length ++ (" updated"))) := by
      simp [formatChangeSummary, joinParts]
    rw [hfmt]
    exact lastChar_append _ _ _ (lastChar_append _ _ _ (lastChar_updated _))

/-- C6: for every diff, `formatChangeSummary` agrees with the
specification-side summary built from the three counts; it returns
`"no changes"` exactly when all three counts are zero; and an absent diff
yields the empty string. -/
theorem formatChangeSummary_spec :
    (∀ c : KeymapChanges,
       formatChangeSummary (some c) =
         specChangeSummary c.add.length c.remove.length c.update.length ∧
       (formatChangeSummary (some c) = "no changes" ↔
          c.add.length = 0 ∧ c.remove.length = 0 ∧ c.update.length = 0)) ∧
    formatChangeSummary none = "" := by
  refine ⟨fun c => ⟨?_, ?_, ?_⟩, rfl⟩
  · rcases c with ⟨a, r, u⟩
    rcases a with _ | ⟨a0, arest⟩ <;> rcases r with _ | ⟨r0, rrest⟩ <;>
      rcases u with _ | ⟨u0, urest⟩ <;>
      simp [formatChangeSummary, specChangeSummary, summaryClause]
  · intro hEq
    by_contra hne
    have hl := lastChar_formatChangeSummary c hne
    rw [hEq] at hl
    exact absurd hl (by decide)
  · rintro ⟨h1, h2, h3⟩
    rcases c with ⟨a, r, u⟩
    obtain rfl : a = [] := List.length_eq_zero.1 h1
    obtain rfl : r = [] := List.length_eq_zero.1 h2
    obtain rfl : u = [] := List.length_eq_zero.1 h3
    rfl
